import Mathlib

/-!
# Platform wrapper for Linux on the ZedBoard

A shallow embedding of `platform-zedboard-linux.cpp`
(`src/main/resources/cpp/platform-wrapper-regdriver`): the global `platform`
pointer with `initPlatform` / `deinitPlatform`, and `loadBitfile`, which runs the
program named by `ZYNQ_BITFILE_LOADER` through `fork`, `execl` and `wait`.

The operating system is an explicit record of answers (`OS`); every call the code
makes to it is appended to a trace, so that the number and the arguments of the
calls can be stated.
-/

namespace ZedboardLinux

/-! ## 32-bit signed arithmetic (the type `int` of the size expression) -/

/-- Smallest value of a 32-bit signed `int`. -/
def INT_MIN : Int := -2147483648

/-- Largest value of a 32-bit signed `int`. -/
def INT_MAX : Int := 2147483647

/-- Whether a mathematical integer is representable as a 32-bit signed `int`. -/
def inInt32 (x : Int) : Bool := decide (INT_MIN ≤ x) && decide (x ≤ INT_MAX)

/-- Two-complement wrap of a mathematical integer into the 32-bit signed range. -/
def wrapInt32 (x : Int) : Int := (x + 2147483648) % 4294967296 - 2147483648

/-- Product of two `int` values as a 32-bit machine computes it. -/
def mulInt32 (a b : Int) : Int := wrapInt32 (a * b)

/-! ## The platform singleton -/

/-- Modelled from the spec: the class `LinuxPhysRegDriver` (declared in
`linuxphysregdriver.hpp`, which is not part of the sources). An object records the
three constructor arguments: register base address, unmanaged memory base address
and unmanaged memory size. -/
structure LinuxPhysRegDriver where
  regBase : Nat
  memBase : Nat
  memSize : Int
  deriving DecidableEq, Repr

/-- A pointer to a driver object: `none` is the null pointer, `some i` points to the
`i`-th object created by `new` in this process. -/
abbrev DriverPtr := Option Nat

/-- Process-wide state touched by `initPlatform`: the global `platform` pointer and the
driver objects created so far by `new` (in creation order). -/
structure Globals where
  platform : DriverPtr
  heap : List LinuxPhysRegDriver
  deriving DecidableEq, Repr

/-- State at program start: `LinuxPhysRegDriver * platform = 0;` and nothing allocated. -/
def Globals.initial : Globals := { platform := none, heap := [] }

/-- The state of a process in which exactly one driver object exists, with the
addresses and the size named in the header comment of the file, and `platform` points
to it. -/
def Globals.constructed : Globals :=
  { platform := some 0,
    heap := [{ regBase := 0x43c00000, memBase := 0x10000000, memSize := 268435456 }] }

/-- The expression `new LinuxPhysRegDriver(regBase, memBase, memSize)`: a fresh object is
created and a (non-null) pointer to it is returned. -/
def newLinuxPhysRegDriver (regBase memBase : Nat) (memSize : Int) (g : Globals) :
    DriverPtr × Globals :=
  (some g.heap.length,
   { g with heap := g.heap ++ [{ regBase := regBase, memBase := memBase, memSize := memSize }] })

/-- The function `initPlatform(bool tracing)`. -/
def initPlatform (tracing : Bool) (g : Globals) : DriverPtr × Globals :=
  if g.platform.isNone then
    let (p, g1) := newLinuxPhysRegDriver 0x43c00000 0x10000000
      (mulInt32 (mulInt32 256 1024) 1024) g
    let g2 := { g1 with platform := p }
    (g2.platform, g2)
  else
    (g.platform, g)

/-- The function `deinitPlatform(WrapperRegDriver * driver)`: its body is empty. -/
def deinitPlatform (driver : DriverPtr) (g : Globals) : Globals := g

/-- The object a pointer refers to, if any. -/
def Globals.deref (g : Globals) (p : DriverPtr) : Option LinuxPhysRegDriver :=
  match p with
  | none => none
  | some i => g.heap.get? i

/-- One call made by a client of the platform wrapper. -/
inductive Call where
  | init (tracing : Bool)
  | deinit (driver : DriverPtr)
  deriving DecidableEq, Repr

/-- Run a sequence of calls from state `g`; the first component lists the handles
returned by the `initPlatform` calls, in order. -/
def runCalls : List Call → Globals → List DriverPtr × Globals
  | [], g => ([], g)
  | Call.init t :: rest, g =>
    let (h, g1) := initPlatform t g
    let (hs, g2) := runCalls rest g1
    (h :: hs, g2)
  | Call.deinit d :: rest, g => runCalls rest (deinitPlatform d g)

/-- Number of `initPlatform` calls in a sequence. -/
def countInit : List Call → Nat
  | [] => 0
  | Call.init _ :: rest => countInit rest + 1
  | Call.deinit _ :: rest => countInit rest

/-! ## The process model used by `loadBitfile` -/

/-- Answers of the operating system to the calls `loadBitfile` makes. -/
structure OS where
  /-- the environment: `none` is the null pointer returned for an unset variable -/
  getenv : String → Option String
  /-- return value of `fork()` in the process under observation -/
  forkRet : Int
  /-- return value of `execl` when it fails; `none` when the program image is replaced -/
  execlRet : String → List String → Option Int
  /-- return value of `wait` -/
  waitRet : Int
  /-- value stored by `wait` into `status` -/
  waitStatus : Int

/-- A call to the operating system, with its arguments and its answer. -/
inductive Event where
  | getenv (name : String) (ret : Option String)
  | fork (ret : Int)
  | execl (path : String) (argv : List String)
  | wait (ret : Int) (status : Int)
  | exit (code : Int)
  deriving DecidableEq, Repr

/-- Observable state of the running process: the calls made so far and the characters
written to `cout`. -/
structure Proc where
  trace : List Event
  out : String
  deriving DecidableEq, Repr

/-- How a statement ends. -/
inductive Step (α : Type) where
  /-- normal completion with a value -/
  | ok (a : α)
  /-- a C++ exception of type `const char *` leaves the function -/
  | threw (msg : String)
  /-- the process was terminated by `_exit` -/
  | exited (code : Int)
  /-- the process image was replaced by a successful `execl` -/
  | replaced
  deriving DecidableEq, Repr

/-- A statement: a state transformer with an outcome. -/
def Stmt (α : Type) : Type := Proc → Step α × Proc

/-- Sequencing of statements: what follows runs only after normal completion. -/
def Stmt.bind {α β : Type} (m : Stmt α) (f : α → Stmt β) : Stmt β := fun p =>
  match m p with
  | (Step.ok a, p1) => f a p1
  | (Step.threw msg, p1) => (Step.threw msg, p1)
  | (Step.exited c, p1) => (Step.exited c, p1)
  | (Step.replaced, p1) => (Step.replaced, p1)

instance : Monad Stmt where
  pure a := fun p => (Step.ok a, p)
  bind := Stmt.bind

/-- The statement `throw msg;`. -/
def throwStr {α : Type} (msg : String) : Stmt α := fun p => (Step.threw msg, p)

/-- The call `getenv(name)`. -/
def getenv (os : OS) (name : String) : Stmt (Option String) := fun p =>
  (Step.ok (os.getenv name), { p with trace := p.trace ++ [Event.getenv name (os.getenv name)] })

/-- The call `fork()`. -/
def fork (os : OS) : Stmt Int := fun p =>
  (Step.ok os.forkRet, { p with trace := p.trace ++ [Event.fork os.forkRet] })

/-- The call `execl(path, arg0, arg1, NULL)`: on success the image is replaced and
nothing after it runs; on failure it returns. -/
def execl (os : OS) (path arg0 arg1 : String) : Stmt Int := fun p =>
  let p1 := { p with trace := p.trace ++ [Event.execl path [arg0, arg1]] }
  match os.execlRet path [arg0, arg1] with
  | none => (Step.replaced, p1)
  | some r => (Step.ok r, p1)

/-- The call `wait(&status)`: returns the pid and the stored status. -/
def wait (os : OS) : Stmt (Int × Int) := fun p =>
  (Step.ok (os.waitRet, os.waitStatus),
   { p with trace := p.trace ++ [Event.wait os.waitRet os.waitStatus] })

/-- The call `_exit(code)`. -/
def _exit {α : Type} (code : Int) : Stmt α := fun p =>
  (Step.exited code, { p with trace := p.trace ++ [Event.exit code] })

/-- The expression `cout << s`. -/
def cout (s : String) : Stmt Unit := fun p => (Step.ok (), { p with out := p.out ++ s })

/-- The manipulator `endl`: a line end (the flush is not observable here). -/
def endl : Stmt Unit := cout "\n"

/-- The function `loadBitfile(const char * accelName)`. -/
def loadBitfile (os : OS) (accelName : String) : Stmt Unit := do
  let loader ← getenv os "ZYNQ_BITFILE_LOADER"
  match loader with
  | none => throwStr "ZYNQ_BITFILE_LOADER must be set"
  | some loader =>
    let c_pid ← fork os
    if c_pid = 0 then
      let _ ← execl os loader loader accelName
      throwStr "execl failed"
    else if c_pid > 0 then
      let (pid, _status) ← wait os
      if pid < 0 then
        throwStr "wait failed"
        _exit 1
    else
      throwStr "fork failed"
      _exit 1
    cout "loadBitfile finished: "
    cout accelName
    endl

/-- A fresh process: nothing called, nothing written. -/
def Proc.initial : Proc := { trace := [], out := "" }

/-- One call of `loadBitfile` in a fresh process. -/
def runLoadBitfile (os : OS) (accelName : String) : Step Unit × Proc :=
  loadBitfile os accelName Proc.initial

/-- Number of `fork` calls in a trace. -/
def forkCalls (tr : List Event) : Nat :=
  tr.countP fun e => match e with | Event.fork _ => true | _ => false

/-- Number of `execl` calls in a trace. -/
def execlCalls (tr : List Event) : Nat :=
  tr.countP fun e => match e with | Event.execl _ _ => true | _ => false

/-- Number of `wait` calls in a trace. -/
def waitCalls (tr : List Event) : Nat :=
  tr.countP fun e => match e with | Event.wait _ _ => true | _ => false

/-- The text of the completion notice for an accelerator name. -/
def completionNotice (accelName : String) : String :=
  "loadBitfile finished: " ++ accelName ++ "\n"

/-- What `wait` may answer in a process whose children are `children` (POSIX): the pid of
one of them, whichever terminated, or `-1`. -/
def waitAnswers (children : List Int) (ret : Int) : Prop := ret = -1 ∨ ret ∈ children

instance (children : List Int) (ret : Int) : Decidable (waitAnswers children ret) := by
  unfold waitAnswers
  infer_instance

/-! ## Concrete operating-system answers used as test inputs -/

/-- An environment in which only `ZYNQ_BITFILE_LOADER` is set, to `value`. -/
def envWith (value : String) : String → Option String :=
  fun name => if name = "ZYNQ_BITFILE_LOADER" then some value else none

/-- The variable is unset. -/
def osUnset : OS :=
  { getenv := fun _ => none, forkRet := 7, execlRet := fun _ _ => some (-1),
    waitRet := 7, waitStatus := 0 }

/-- The variable is set to the empty string; the process is the parent of child 7. -/
def osEmpty : OS :=
  { getenv := envWith "", forkRet := 7, execlRet := fun _ _ => some (-1),
    waitRet := 7, waitStatus := 0 }

/-- The parent of child 7, whose loader exits with code 0. -/
def osParent : OS :=
  { getenv := envWith "/bin/loader.sh", forkRet := 7, execlRet := fun _ _ => some (-1),
    waitRet := 7, waitStatus := 0 }

/-- The child process, in which `execl` fails with `-1`. -/
def osChildExecFails : OS :=
  { getenv := envWith "/bin/loader.sh", forkRet := 0, execlRet := fun _ _ => some (-1),
    waitRet := -1, waitStatus := 0 }

/-- The call `fork` fails with `-1`. -/
def osForkFails : OS :=
  { getenv := envWith "/bin/loader.sh", forkRet := -1, execlRet := fun _ _ => some (-1),
    waitRet := -1, waitStatus := 0 }

/-- The parent of child 7, in which `wait` fails with `-1`. -/
def osWaitFails : OS :=
  { getenv := envWith "/bin/loader.sh", forkRet := 7, execlRet := fun _ _ => some (-1),
    waitRet := -1, waitStatus := 0 }

/-- The parent of child 5 in a process that already has a child 3, which terminates
first: `wait` answers 3. -/
def osOtherChild : OS :=
  { getenv := envWith "/bin/loader.sh", forkRet := 5, execlRet := fun _ _ => some (-1),
    waitRet := 3, waitStatus := 0 }

end ZedboardLinux

namespace ZedboardLinux

/-! ## Case analysis of `loadBitfile` -/

theorem runLoadBitfile_unset (os : OS) (n : String)
    (h : os.getenv "ZYNQ_BITFILE_LOADER" = none) :
    runLoadBitfile os n =
      (Step.threw "ZYNQ_BITFILE_LOADER must be set",
       { trace := [Event.getenv "ZYNQ_BITFILE_LOADER" none], out := "" }) := by
  simp [runLoadBitfile, loadBitfile, bind, Stmt.bind, getenv, h, throwStr, Proc.initial]

theorem runLoadBitfile_child (os : OS) (n l : String)
    (h : os.getenv "ZYNQ_BITFILE_LOADER" = some l) (hf : os.forkRet = 0) :
    runLoadBitfile os n =
      (match os.execlRet l [l, n] with
        | none => Step.replaced
        | some _ => Step.threw "execl failed",
       { trace := [Event.getenv "ZYNQ_BITFILE_LOADER" (some l), Event.fork 0,
                   Event.execl l [l, n]], out := "" }) := by
  simp [runLoadBitfile, loadBitfile, bind, Stmt.bind, getenv, h, throwStr, Proc.initial, fork, hf,
    execl]
  cases os.execlRet l [l, n] <;> simp

theorem runLoadBitfile_forkFailed (os : OS) (n l : String)
    (h : os.getenv "ZYNQ_BITFILE_LOADER" = some l) (hf : os.forkRet < 0) :
    runLoadBitfile os n =
      (Step.threw "fork failed",
       { trace := [Event.getenv "ZYNQ_BITFILE_LOADER" (some l), Event.fork os.forkRet],
         out := "" }) := by
  have h0 : os.forkRet ≠ 0 := by omega
  have h1 : ¬ (os.forkRet > 0) := by omega
  simp [runLoadBitfile, loadBitfile, bind, Stmt.bind, getenv, h, throwStr, Proc.initial, fork, h0,
    h1]

theorem runLoadBitfile_waitFailed (os : OS) (n l : String)
    (h : os.getenv "ZYNQ_BITFILE_LOADER" = some l) (hf : os.forkRet > 0) (hw : os.waitRet < 0) :
    runLoadBitfile os n =
      (Step.threw "wait failed",
       { trace := [Event.getenv "ZYNQ_BITFILE_LOADER" (some l), Event.fork os.forkRet,
                   Event.wait os.waitRet os.waitStatus],
         out := "" }) := by
  have h0 : os.forkRet ≠ 0 := by omega
  simp [runLoadBitfile, loadBitfile, bind, Stmt.bind, getenv, h, throwStr, Proc.initial, fork, h0,
    hf, wait, hw]

theorem runLoadBitfile_parent (os : OS) (n l : String)
    (h : os.getenv "ZYNQ_BITFILE_LOADER" = some l) (hf : os.forkRet > 0) (hw : 0 ≤ os.waitRet) :
    runLoadBitfile os n =
      (Step.ok (),
       { trace := [Event.getenv "ZYNQ_BITFILE_LOADER" (some l), Event.fork os.forkRet,
                   Event.wait os.waitRet os.waitStatus],
         out := completionNotice n }) := by
  have h0 : os.forkRet ≠ 0 := by omega
  have h1 : ¬ (os.waitRet < 0) := by omega
  simp [runLoadBitfile, loadBitfile, bind, Stmt.bind, getenv, h, throwStr, Proc.initial, fork, h0,
    hf, wait, h1, cout, endl, completionNotice, pure]

/-- With the variable set, whatever its value, the not-configured error is not raised and
`fork` is called exactly once. -/
theorem runLoadBitfile_set (os : OS) (n l : String)
    (h : os.getenv "ZYNQ_BITFILE_LOADER" = some l) :
    (runLoadBitfile os n).1 ≠ Step.threw "ZYNQ_BITFILE_LOADER must be set" ∧
    forkCalls (runLoadBitfile os n).2.trace = 1 ∧
    (runLoadBitfile os n).2.trace.take 2 =
      [Event.getenv "ZYNQ_BITFILE_LOADER" (some l), Event.fork os.forkRet] := by
  rcases lt_trichotomy os.forkRet 0 with hf | hf | hf
  · rw [runLoadBitfile_forkFailed os n l h hf]
    simp [forkCalls]
  · rw [runLoadBitfile_child os n l h hf, hf]
    cases os.execlRet l [l, n] <;> simp [forkCalls]
  · rcases lt_or_le os.waitRet 0 with hw | hw
    · rw [runLoadBitfile_waitFailed os n l h hf hw]
      simp [forkCalls]
    · rw [runLoadBitfile_parent os n l h hf hw]
      simp [forkCalls]

/-! ## The singleton -/

theorem mulInt32_size : mulInt32 (mulInt32 256 1024) 1024 = 268435456 := by
  decide

theorem initPlatform_null (t : Bool) (g : Globals) (h : g.platform = none) :
    initPlatform t g =
      (some g.heap.length,
       { platform := some g.heap.length,
         heap := g.heap ++
           [{ regBase := 0x43c00000, memBase := 0x10000000, memSize := 268435456 }] }) := by
  simp [initPlatform, h, newLinuxPhysRegDriver, mulInt32_size]

theorem initPlatform_nonnull (t : Bool) (g : Globals) (i : Nat) (h : g.platform = some i) :
    initPlatform t g = (some i, g) := by
  simp [initPlatform, h]

theorem runCalls_nonnull (calls : List Call) (g : Globals) (i : Nat) (h : g.platform = some i) :
    runCalls calls g = (List.replicate (countInit calls) (some i), g) := by
  induction calls with
  | nil => simp [runCalls, countInit]
  | cons c rest ih =>
    cases c with
    | init t => simp [runCalls, countInit, initPlatform_nonnull t g i h, ih, List.replicate_succ]
    | deinit d => simp [runCalls, countInit, deinitPlatform, ih]

theorem runCalls_initial (calls : List Call) :
    runCalls calls Globals.initial =
      (List.replicate (countInit calls) (some 0),
       if countInit calls = 0 then Globals.initial else Globals.constructed) := by
  induction calls with
  | nil => simp [runCalls, countInit]
  | cons c rest ih =>
    cases c with
    | init t =>
      have h0 : initPlatform t Globals.initial = (some 0, Globals.constructed) := by
        rw [initPlatform_null t Globals.initial rfl]
        rfl
      simp [runCalls, countInit, h0, runCalls_nonnull rest Globals.constructed 0 rfl,
        List.replicate_succ]
    | deinit d => simp [runCalls, countInit, deinitPlatform, ih]

end ZedboardLinux

namespace ZedboardLinux

/-! ## The singleton: properties -/

/-- C1: for every finite sequence of initPlatform and deinitPlatform calls (any tracing
flag, any handle argument) started with the global pointer null, every initPlatform call
returns the same handle, the one the first initPlatform call constructs (pointer to
object 0); the driver is constructed exactly once as soon as the sequence holds an
initPlatform call (and never otherwise), and deinitPlatform leaves every state, hence the
stored instance, unchanged. -/
theorem singleton_handle_stable (calls : List Call) :
    (runCalls calls Globals.initial).1 =
        List.replicate (countInit calls) (initPlatform false Globals.initial).1 ∧
    (initPlatform false Globals.initial).1 = some 0 ∧
    (runCalls calls Globals.initial).2.heap.length = (if countInit calls = 0 then 0 else 1) ∧
    (runCalls calls Globals.initial).2 =
        (if countInit calls = 0 then Globals.initial else (initPlatform false Globals.initial).2) ∧
    (∀ (d : DriverPtr) (g : Globals), deinitPlatform d g = g) := by
  have h0 : initPlatform false Globals.initial = (some 0, Globals.constructed) := by
    rw [initPlatform_null false Globals.initial rfl]
    rfl
  rw [runCalls_initial calls, h0]
  refine ⟨rfl, rfl, ?_, rfl, fun _ _ => rfl⟩
  by_cases hc : countInit calls = 0 <;> simp [hc, Globals.initial, Globals.constructed]

/-- C10: from a state where no instance exists (platform is null), initPlatform(t)
creates one driver object bound to register base 0x43c00000, unmanaged memory base
0x10000000 and size 256 * 1024 * 1024 = 268435456, stores the pointer to it in platform
and returns that pointer; both products of the size expression stay inside the 32-bit
signed range, so the machine product equals the mathematical one; and the result is the
same for tracing true and false. -/
theorem initPlatform_constructs (t : Bool) (g : Globals) (h : g.platform = none) :
    initPlatform t g =
      (some g.heap.length,
       { platform := some g.heap.length,
         heap := g.heap ++
           [{ regBase := 0x43c00000, memBase := 0x10000000, memSize := 268435456 }] }) ∧
    (initPlatform t g).2.deref (initPlatform t g).1 =
      some { regBase := 0x43c00000, memBase := 0x10000000, memSize := 268435456 } ∧
    (initPlatform t g).2.platform = (initPlatform t g).1 ∧
    inInt32 (256 * 1024) = true ∧ inInt32 (256 * 1024 * 1024) = true ∧
    mulInt32 (mulInt32 256 1024) 1024 = 256 * 1024 * 1024 ∧
    (256 * 1024 * 1024 : Int) = 268435456 ∧
    initPlatform true g = initPlatform false g := by
  refine ⟨initPlatform_null t g h, ?_, ?_, by decide, by decide, by decide, by decide, ?_⟩
  · rw [initPlatform_null t g h]
    simp [Globals.deref]
  · rw [initPlatform_null t g h]
  · rw [initPlatform_null true g h, initPlatform_null false g h]

/-- Witness for C10: the initial state of a process, tracing enabled. -/
theorem initPlatform_constructs_witness :
    Globals.initial.platform = none ∧
    initPlatform true Globals.initial =
      (some 0,
       { platform := some 0,
         heap := [{ regBase := 0x43c00000, memBase := 0x10000000, memSize := 268435456 }] }) :=
  ⟨rfl, (initPlatform_constructs true Globals.initial rfl).1⟩

end ZedboardLinux

namespace ZedboardLinux

/-! ## Loading a bitfile: properties -/

/-- C2: for every accelerator name, when ZYNQ_BITFILE_LOADER is unset, loadBitfile throws
"ZYNQ_BITFILE_LOADER must be set" and creates no process: fork, execl and wait are each
called zero times (the only call made is the getenv itself) and nothing is written to
cout. -/
theorem loadBitfile_unset_fails (os : OS) (accelName : String)
    (h : os.getenv "ZYNQ_BITFILE_LOADER" = none) :
    (runLoadBitfile os accelName).1 = Step.threw "ZYNQ_BITFILE_LOADER must be set" ∧
    forkCalls (runLoadBitfile os accelName).2.trace = 0 ∧
    execlCalls (runLoadBitfile os accelName).2.trace = 0 ∧
    waitCalls (runLoadBitfile os accelName).2.trace = 0 ∧
    (runLoadBitfile os accelName).2.trace = [Event.getenv "ZYNQ_BITFILE_LOADER" none] ∧
    (runLoadBitfile os accelName).2.out = "" := by
  rw [runLoadBitfile_unset os accelName h]
  simp [forkCalls, execlCalls, waitCalls]

/-- Witness for C2: the variable unset, accelerator "accel1". -/
theorem loadBitfile_unset_fails_witness :
    osUnset.getenv "ZYNQ_BITFILE_LOADER" = none ∧
    (runLoadBitfile osUnset "accel1").1 = Step.threw "ZYNQ_BITFILE_LOADER must be set" ∧
    forkCalls (runLoadBitfile osUnset "accel1").2.trace = 0 :=
  ⟨rfl, (loadBitfile_unset_fails osUnset "accel1" rfl).1,
    (loadBitfile_unset_fails osUnset "accel1" rfl).2.1⟩

/-- C3 as stated fails: with ZYNQ_BITFILE_LOADER set to the empty string, in the parent of
child 7 whose wait succeeds, loadBitfile("accel0") does not throw the not-configured
error; it calls fork once and completes. -/
theorem loadBitfile_empty_loader_forks :
    osEmpty.getenv "ZYNQ_BITFILE_LOADER" = some "" ∧
    (runLoadBitfile osEmpty "accel0").1 = Step.ok () ∧
    (runLoadBitfile osEmpty "accel0").1 ≠ Step.threw "ZYNQ_BITFILE_LOADER must be set" ∧
    forkCalls (runLoadBitfile osEmpty "accel0").2.trace = 1 ∧
    forkCalls (runLoadBitfile osEmpty "accel0").2.trace ≠ 0 := by
  have h : osEmpty.getenv "ZYNQ_BITFILE_LOADER" = some "" := by simp [osEmpty, envWith]
  have hr := runLoadBitfile_parent osEmpty "accel0" "" h (by decide) (by decide)
  rw [hr]
  refine ⟨h, rfl, by simp, ?_, ?_⟩ <;> simp [forkCalls, osEmpty]

/-- C3 amended: for every accelerator name, when ZYNQ_BITFILE_LOADER is set to the empty
string, loadBitfile does not raise the not-configured error (the guard tests only for the
null pointer): it calls fork exactly once, right after the getenv, and goes on with the
empty string as the loader path, as for any other set value. -/
theorem loadBitfile_empty_loader_proceeds (os : OS) (accelName : String)
    (h : os.getenv "ZYNQ_BITFILE_LOADER" = some "") :
    (runLoadBitfile os accelName).1 ≠ Step.threw "ZYNQ_BITFILE_LOADER must be set" ∧
    forkCalls (runLoadBitfile os accelName).2.trace = 1 ∧
    (runLoadBitfile os accelName).2.trace.take 2 =
      [Event.getenv "ZYNQ_BITFILE_LOADER" (some ""), Event.fork os.forkRet] :=
  runLoadBitfile_set os accelName "" h

/-- Witness for C3 amended: the empty loader path in the parent of child 7. -/
theorem loadBitfile_empty_loader_proceeds_witness :
    osEmpty.getenv "ZYNQ_BITFILE_LOADER" = some "" ∧
    forkCalls (runLoadBitfile osEmpty "accel0").2.trace = 1 :=
  ⟨by simp [osEmpty, envWith],
   (loadBitfile_empty_loader_proceeds osEmpty "accel0" (by simp [osEmpty, envWith])).2.1⟩

/-- C4 at the failing input: in the child (fork returned 0) with a failing execl,
loadBitfile("accel0") ends by throwing "execl failed" to its caller; the process is not
terminated, and no _exit call is made. -/
theorem loadBitfile_child_exec_failure_throws :
    osChildExecFails.getenv "ZYNQ_BITFILE_LOADER" = some "/bin/loader.sh" ∧
    osChildExecFails.forkRet = 0 ∧
    osChildExecFails.execlRet "/bin/loader.sh" ["/bin/loader.sh", "accel0"] = some (-1) ∧
    (runLoadBitfile osChildExecFails "accel0").1 = Step.threw "execl failed" ∧
    (∀ code : Int, (runLoadBitfile osChildExecFails "accel0").1 ≠ Step.exited code) ∧
    (∀ code : Int, Event.exit code ∉ (runLoadBitfile osChildExecFails "accel0").2.trace) := by
  have h : osChildExecFails.getenv "ZYNQ_BITFILE_LOADER" = some "/bin/loader.sh" := by
    simp [osChildExecFails, envWith]
  have hr := runLoadBitfile_child osChildExecFails "accel0" "/bin/loader.sh" h rfl
  rw [hr]
  refine ⟨h, rfl, rfl, ?_, ?_, ?_⟩ <;> simp [osChildExecFails]

end ZedboardLinux

namespace ZedboardLinux

/-- C5 as stated fails: in a process that already has a child 3, the call creates child 5,
wait answers 3 (a legal answer of wait there), and loadBitfile("accel0") completes
successfully although the collected process is not the child it created. -/
theorem loadBitfile_collects_other_child :
    osOtherChild.getenv "ZYNQ_BITFILE_LOADER" = some "/bin/loader.sh" ∧
    osOtherChild.forkRet = 5 ∧
    waitAnswers (osOtherChild.forkRet :: [3]) osOtherChild.waitRet ∧
    (runLoadBitfile osOtherChild "accel0").1 = Step.ok () ∧
    (runLoadBitfile osOtherChild "accel0").2.trace =
      [Event.getenv "ZYNQ_BITFILE_LOADER" (some "/bin/loader.sh"), Event.fork 5,
       Event.wait 3 0] ∧
    osOtherChild.waitRet ≠ osOtherChild.forkRet := by
  have h : osOtherChild.getenv "ZYNQ_BITFILE_LOADER" = some "/bin/loader.sh" := by
    simp [osOtherChild, envWith]
  have hr := runLoadBitfile_parent osOtherChild "accel0" "/bin/loader.sh" h (by decide)
    (by decide)
  rw [hr]
  exact ⟨h, rfl, by decide, rfl, rfl, by decide⟩

/-- C5 amended: in the parent branch (fork returned c > 0) loadBitfile calls wait exactly
once, for any child of the calling process, and completes successfully exactly when the
answer is non-negative; whenever it completes successfully the collected process is a
child of the caller, either c or one of the children the process already had, and it is c
when the process has no other children. -/
theorem loadBitfile_collects_some_child (os : OS) (accelName loader : String)
    (others : List Int)
    (henv : os.getenv "ZYNQ_BITFILE_LOADER" = some loader)
    (hfork : os.forkRet > 0)
    (hwait : waitAnswers (os.forkRet :: others) os.waitRet) :
    waitCalls (runLoadBitfile os accelName).2.trace = 1 ∧
    (runLoadBitfile os accelName).2.trace.getLast? =
      some (Event.wait os.waitRet os.waitStatus) ∧
    ((runLoadBitfile os accelName).1 = Step.ok () ↔ 0 ≤ os.waitRet) ∧
    ((runLoadBitfile os accelName).1 = Step.ok () → os.waitRet ∈ os.forkRet :: others) ∧
    ((runLoadBitfile os accelName).1 = Step.ok () → others = [] →
      os.waitRet = os.forkRet) := by
  rcases lt_or_le os.waitRet 0 with hw | hw
  · rw [runLoadBitfile_waitFailed os accelName loader henv hfork hw]
    have hn : ¬ (0 ≤ os.waitRet) := by omega
    simp [waitCalls, hn]
  · rw [runLoadBitfile_parent os accelName loader henv hfork hw]
    have hmem : os.waitRet ∈ os.forkRet :: others := by
      rcases hwait with h1 | h1
      · omega
      · exact h1
    refine ⟨by simp [waitCalls], by simp, by simp [hw], fun _ => hmem, fun _ ho => ?_⟩
    subst ho
    simpa using hmem

/-- Witness for C5 amended: the process of the counterexample, where the collected child
is the older child 3. -/
theorem loadBitfile_collects_some_child_witness :
    osOtherChild.getenv "ZYNQ_BITFILE_LOADER" = some "/bin/loader.sh" ∧
    osOtherChild.forkRet > 0 ∧
    waitAnswers (osOtherChild.forkRet :: [3]) osOtherChild.waitRet ∧
    waitCalls (runLoadBitfile osOtherChild "accel0").2.trace = 1 ∧
    ((runLoadBitfile osOtherChild "accel0").1 = Step.ok () ↔ 0 ≤ osOtherChild.waitRet) :=
  ⟨by simp [osOtherChild, envWith], by decide, by decide,
   (loadBitfile_collects_some_child osOtherChild "accel0" "/bin/loader.sh" [3]
      (by simp [osOtherChild, envWith]) (by decide) (by decide)).1,
   (loadBitfile_collects_some_child osOtherChild "accel0" "/bin/loader.sh" [3]
      (by simp [osOtherChild, envWith]) (by decide) (by decide)).2.2.1⟩

/-- C6: for every accelerator name n, when ZYNQ_BITFILE_LOADER is set, fork returns a
child pid > 0 and wait returns a non-negative value, loadBitfile returns normally and the
text written to cout is exactly one notice: "loadBitfile finished: ", then n, then a line
end. -/
theorem loadBitfile_success_notice (os : OS) (accelName loader : String)
    (henv : os.getenv "ZYNQ_BITFILE_LOADER" = some loader)
    (hfork : os.forkRet > 0) (hwait : 0 ≤ os.waitRet) :
    (runLoadBitfile os accelName).1 = Step.ok () ∧
    (runLoadBitfile os accelName).2.out = "loadBitfile finished: " ++ accelName ++ "\n" ∧
    (runLoadBitfile os accelName).2.out = completionNotice accelName := by
  rw [runLoadBitfile_parent os accelName loader henv hfork hwait]
  exact ⟨rfl, rfl, rfl⟩

/-- Witness for C6: the scenario of the spec, accelerator "accel0". -/
theorem loadBitfile_success_notice_witness :
    osParent.getenv "ZYNQ_BITFILE_LOADER" = some "/bin/loader.sh" ∧
    osParent.forkRet > 0 ∧ 0 ≤ osParent.waitRet ∧
    (runLoadBitfile osParent "accel0").1 = Step.ok () ∧
    (runLoadBitfile osParent "accel0").2.out = "loadBitfile finished: " ++ "accel0" ++ "\n" :=
  ⟨by simp [osParent, envWith], by decide, by decide,
   (loadBitfile_success_notice osParent "accel0" "/bin/loader.sh"
      (by simp [osParent, envWith]) (by decide) (by decide)).1,
   (loadBitfile_success_notice osParent "accel0" "/bin/loader.sh"
      (by simp [osParent, envWith]) (by decide) (by decide)).2.1⟩

end ZedboardLinux

namespace ZedboardLinux

/-- C7: with ZYNQ_BITFILE_LOADER set, loadBitfile reports the step that failed and writes
no notice. When fork returns a negative value it throws "fork failed", fork was called
once and wait never; when fork returns a child pid > 0 and wait returns a negative value
it throws "wait failed", fork and wait were each called once. In both cases nothing is
written to cout. -/
theorem loadBitfile_failure_kinds (os : OS) (accelName loader : String)
    (henv : os.getenv "ZYNQ_BITFILE_LOADER" = some loader) :
    (os.forkRet < 0 →
      (runLoadBitfile os accelName).1 = Step.threw "fork failed" ∧
      forkCalls (runLoadBitfile os accelName).2.trace = 1 ∧
      waitCalls (runLoadBitfile os accelName).2.trace = 0 ∧
      execlCalls (runLoadBitfile os accelName).2.trace = 0 ∧
      (runLoadBitfile os accelName).2.out = "") ∧
    (os.forkRet > 0 → os.waitRet < 0 →
      (runLoadBitfile os accelName).1 = Step.threw "wait failed" ∧
      forkCalls (runLoadBitfile os accelName).2.trace = 1 ∧
      waitCalls (runLoadBitfile os accelName).2.trace = 1 ∧
      execlCalls (runLoadBitfile os accelName).2.trace = 0 ∧
      (runLoadBitfile os accelName).2.out = "") := by
  constructor
  · intro hf
    rw [runLoadBitfile_forkFailed os accelName loader henv hf]
    simp [forkCalls, waitCalls, execlCalls]
  · intro hf hw
    rw [runLoadBitfile_waitFailed os accelName loader henv hf hw]
    simp [forkCalls, waitCalls, execlCalls]

/-- Witness for C7: one process in which fork fails and one in which wait fails. -/
theorem loadBitfile_failure_kinds_witness :
    (osForkFails.getenv "ZYNQ_BITFILE_LOADER" = some "/bin/loader.sh" ∧
      osForkFails.forkRet < 0 ∧
      (runLoadBitfile osForkFails "accel0").1 = Step.threw "fork failed" ∧
      waitCalls (runLoadBitfile osForkFails "accel0").2.trace = 0) ∧
    (osWaitFails.getenv "ZYNQ_BITFILE_LOADER" = some "/bin/loader.sh" ∧
      osWaitFails.forkRet > 0 ∧ osWaitFails.waitRet < 0 ∧
      (runLoadBitfile osWaitFails "accel0").1 = Step.threw "wait failed" ∧
      (runLoadBitfile osWaitFails "accel0").2.out = "") :=
  ⟨⟨by simp [osForkFails, envWith], by decide,
    ((loadBitfile_failure_kinds osForkFails "accel0" "/bin/loader.sh"
        (by simp [osForkFails, envWith])).1 (by decide)).1,
    ((loadBitfile_failure_kinds osForkFails "accel0" "/bin/loader.sh"
        (by simp [osForkFails, envWith])).1 (by decide)).2.2.1⟩,
   ⟨by simp [osWaitFails, envWith], by decide, by decide,
    ((loadBitfile_failure_kinds osWaitFails "accel0" "/bin/loader.sh"
        (by simp [osWaitFails, envWith])).2 (by decide) (by decide)).1,
    ((loadBitfile_failure_kinds osWaitFails "accel0" "/bin/loader.sh"
        (by simp [osWaitFails, envWith])).2 (by decide) (by decide)).2.2.2.2⟩⟩

/-- C8: the outcome of loadBitfile does not depend on the status stored by wait: two runs
with the same accelerator name, environment, fork result (> 0) and successful wait result
that differ only in the status value both return normally and write the same text, the
completion notice. -/
theorem loadBitfile_status_independent (os : OS) (accelName loader : String)
    (status1 status2 : Int)
    (henv : os.getenv "ZYNQ_BITFILE_LOADER" = some loader)
    (hfork : os.forkRet > 0) (hwait : 0 ≤ os.waitRet) :
    (runLoadBitfile { os with waitStatus := status1 } accelName).1 = Step.ok () ∧
    (runLoadBitfile { os with waitStatus := status2 } accelName).1 = Step.ok () ∧
    (runLoadBitfile { os with waitStatus := status1 } accelName).2.out =
      (runLoadBitfile { os with waitStatus := status2 } accelName).2.out ∧
    (runLoadBitfile { os with waitStatus := status1 } accelName).2.out =
      completionNotice accelName := by
  rw [runLoadBitfile_parent { os with waitStatus := status1 } accelName loader henv hfork hwait,
    runLoadBitfile_parent { os with waitStatus := status2 } accelName loader henv hfork hwait]
  exact ⟨rfl, rfl, rfl, rfl⟩

/-- Witness for C8: status 0 (exit code 0) against status 256 (exit code 1). -/
theorem loadBitfile_status_independent_witness :
    osParent.getenv "ZYNQ_BITFILE_LOADER" = some "/bin/loader.sh" ∧
    osParent.forkRet > 0 ∧ 0 ≤ osParent.waitRet ∧
    (runLoadBitfile { osParent with waitStatus := 0 } "accel0").1 = Step.ok () ∧
    (runLoadBitfile { osParent with waitStatus := 256 } "accel0").1 = Step.ok () ∧
    (runLoadBitfile { osParent with waitStatus := 0 } "accel0").2.out =
      (runLoadBitfile { osParent with waitStatus := 256 } "accel0").2.out :=
  ⟨by simp [osParent, envWith], by decide, by decide,
   (loadBitfile_status_independent osParent "accel0" "/bin/loader.sh" 0 256
      (by simp [osParent, envWith]) (by decide) (by decide)).1,
   (loadBitfile_status_independent osParent "accel0" "/bin/loader.sh" 0 256
      (by simp [osParent, envWith]) (by decide) (by decide)).2.1,
   (loadBitfile_status_independent osParent "accel0" "/bin/loader.sh" 0 256
      (by simp [osParent, envWith]) (by decide) (by decide)).2.2.1⟩

/-- C9: for every set value p of ZYNQ_BITFILE_LOADER and every accelerator name n, in the
child branch (fork returned 0) loadBitfile issues exactly one execl request; it names
program p unchanged and passes the argument vector [p, n], so the loader runs as p n. -/
theorem loadBitfile_exec_request (os : OS) (accelName loader : String)
    (henv : os.getenv "ZYNQ_BITFILE_LOADER" = some loader)
    (hfork : os.forkRet = 0) :
    (runLoadBitfile os accelName).2.trace =
      [Event.getenv "ZYNQ_BITFILE_LOADER" (some loader), Event.fork 0,
       Event.execl loader [loader, accelName]] ∧
    execlCalls (runLoadBitfile os accelName).2.trace = 1 ∧
    (os.execlRet loader [loader, accelName] = none →
      (runLoadBitfile os accelName).1 = Step.replaced) := by
  rw [runLoadBitfile_child os accelName loader henv hfork]
  refine ⟨rfl, by simp [execlCalls], fun h => ?_⟩
  simp [h]

/-- Witness for C9: the child process with loader "/bin/loader.sh" and name "accel0". -/
theorem loadBitfile_exec_request_witness :
    osChildExecFails.getenv "ZYNQ_BITFILE_LOADER" = some "/bin/loader.sh" ∧
    osChildExecFails.forkRet = 0 ∧
    (runLoadBitfile osChildExecFails "accel0").2.trace =
      [Event.getenv "ZYNQ_BITFILE_LOADER" (some "/bin/loader.sh"), Event.fork 0,
       Event.execl "/bin/loader.sh" ["/bin/loader.sh", "accel0"]] :=
  ⟨by simp [osChildExecFails, envWith], rfl,
   (loadBitfile_exec_request osChildExecFails "accel0" "/bin/loader.sh"
      (by simp [osChildExecFails, envWith]) rfl).1⟩

end ZedboardLinux
